import Mathlib

/-!
Shallow embedding of `ros2action/ros2action/verb/echo.py` (the `ros2 action
echo` verb): the bounded output message queue, the five-interface name
validation, the subscriber callback that renders and enqueues a record, the
printer thread loop (`message_handler`), and the side-effecting skeleton of
`EchoVerb.main`.
-/

/-- The five action interfaces (`class ActionInterfaces(Enum)`, echo.py
lines 46-51).  Each enum member's `value` is its own upper-case name. -/
inductive ActionInterfaces where
  | GOAL_SERVICE
  | CANCEL_SERVICE
  | RESULT_SERVICE
  | FEEDBACK_TOPIC
  | STATUS_TOPIC
  deriving DecidableEq, Repr

/-- Value of each enum member, `interface.value`. -/
def ActionInterfaces.value : ActionInterfaces → String
  | .GOAL_SERVICE => "GOAL_SERVICE"
  | .CANCEL_SERVICE => "CANCEL_SERVICE"
  | .RESULT_SERVICE => "RESULT_SERVICE"
  | .FEEDBACK_TOPIC => "FEEDBACK_TOPIC"
  | .STATUS_TOPIC => "STATUS_TOPIC"

/-- Iteration order of `for interface in ActionInterfaces` (declaration
order of the enum members). -/
def allActionInterfaces : List ActionInterfaces :=
  [ActionInterfaces.GOAL_SERVICE, ActionInterfaces.CANCEL_SERVICE,
   ActionInterfaces.RESULT_SERVICE, ActionInterfaces.FEEDBACK_TOPIC,
   ActionInterfaces.STATUS_TOPIC]

/-- Python `str.lower()` applied to the ASCII interface names: lower each
character. -/
def pyLower (s : String) : String := ⟨s.data.map Char.toLower⟩

/-- List built at echo.py line 112: `action_interfaces_list =
[interface.value.lower() for interface in ActionInterfaces]`. -/
def action_interfaces_list : List String :=
  allActionInterfaces.map (fun i => pyLower i.value)

/-- The bounded output message queue, `self.output_msg_queue =
queue.Queue(args.queue_size)` (echo.py line 156).  Follows the documented
`queue.Queue` contract: FIFO order, and a `maxsize` that is zero (or
negative) means the queue is unbounded. -/
structure RecordQueue where
  capacity : Nat
  items : List String
  deriving DecidableEq, Repr

/-- A freshly constructed queue of the given capacity. -/
def RecordQueue.empty (cap : Nat) : RecordQueue := ⟨cap, []⟩

/-- Producer `put(item, timeout=...)` observed with no concurrent consumer freeing a
slot during the wait: it succeeds exactly when the queue is unbounded or a
slot is free, and otherwise the timeout elapses with the queue still at
capacity and `queue.Full` is raised (modelled as `none`). -/
def RecordQueue.put (q : RecordQueue) (r : String) : Option RecordQueue :=
  if q.capacity = 0 ∨ q.items.length < q.capacity then
    some ⟨q.capacity, q.items ++ [r]⟩
  else
    none

/-- Consumer `get(timeout=...)` observed with no concurrent producer: returns the
oldest record, or raises `queue.Empty` (modelled as `none`) when the queue
is empty at the end of the wait. -/
def RecordQueue.get (q : RecordQueue) : Option (String × RecordQueue) :=
  match q.items with
  | [] => none
  | r :: rest => some (r, ⟨q.capacity, rest⟩)

/-- A sequence of producer `put` calls that must all succeed; `none` when
some put raises `queue.Full`. -/
def putAll : RecordQueue → List String → Option RecordQueue
  | q, [] => some q
  | q, r :: rs =>
    match q.put r with
    | some q2 => putAll q2 rs
    | none => none

/-- Performs `n` consecutive consumer `get` calls; `none` if the queue runs empty. -/
def getN : RecordQueue → Nat → Option (List String × RecordQueue)
  | q, 0 => some ([], q)
  | q, n + 1 =>
    match q.get with
    | some (r, q2) =>
      match getN q2 n with
      | some (rs, q3) => some (r :: rs, q3)
      | none => none
    | none => none

/-- A sequence of producer `put` calls where a `queue.Full` drops the record
and continues, as the `except queue.Full` branch of
`_base_subscriber_callback` does (echo.py lines 274-278).  Returns the final
queue and the dropped records in arrival order. -/
def putOrDropAll : RecordQueue → List String → RecordQueue × List String
  | q, [] => (q, [])
  | q, r :: rs =>
    match q.put r with
    | some q2 => putOrDropAll q2 rs
    | none =>
      let p := putOrDropAll q rs
      (p.1, r :: p.2)

/-- The exact warning printed on `queue.Full` (echo.py lines 277-278). -/
def queueFullWarning : String :=
  "Output message is full! Please increase the queue size of output message by \"--queue_size\""

/-- The enqueue tail of `_base_subscriber_callback` (echo.py lines 274-278):
`try: self.output_msg_queue.put(to_print, timeout=0.5) except queue.Full:
print(warning)`.  Returns the queue after the attempt together with the list
of warning lines printed; the exception is always caught, so the callback
always returns normally. -/
def base_subscriber_enqueue (q : RecordQueue) (record : String) :
    RecordQueue × List String :=
  match q.put record with
  | some q2 => (q2, [])
  | none => (q, [queueFullWarning])

/-- A rendered message value as produced by `message_to_ordereddict`:
numbers, strings, or nested ordered mappings. -/
inductive Val where
  | num (n : Int)
  | str (s : String)
  | dict (entries : List (String × Val))
  deriving Repr

/-- An ordered mapping of field names to rendered values. -/
abbrev MsgDict := List (String × Val)

/-- Python `d[key]` / `key in d` on an ordered mapping: the value at the
first (unique) occurrence of `key`. -/
def lookupKey : MsgDict → String → Option Val
  | [], _ => none
  | (k, v) :: rest, key => if k = key then some v else lookupKey rest key

/-- Python `d[key] = v` on an ordered mapping: replace in place, preserving
order (appending when the key is absent). -/
def setKey : MsgDict → String → Val → MsgDict
  | [], key, v => [(key, v)]
  | (k, w) :: rest, key, v =>
    if k = key then (key, v) :: rest else (k, w) :: setKey rest key v

/-- Echo.py lines 265-268: when the rendered dict has an `info` mapping
holding an `event_type` key, replace its numeric value with the symbolic
name given by `self._event_number_to_name`.  For rendered service events
`info` is always a mapping and `event_type` always a number; the remaining
match arms (where CPython would raise a lookup error) leave the dict
unchanged. -/
def substEventType (event_number_to_name : Int → String) (msgdict : MsgDict) :
    MsgDict :=
  match lookupKey msgdict "info" with
  | some (Val.dict info) =>
    match lookupKey info "event_type" with
    | some (Val.num n) =>
      setKey msgdict "info"
        (Val.dict (setKey info "event_type" (Val.str (event_number_to_name n))))
    | _ => msgdict
  | _ => msgdict

/-- The text built by `_base_subscriber_callback` (echo.py lines 252-273):
`to_print = 'interface: ' + interface + '\n'`, then either the CSV rendering
(`message_to_csv`) or the YAML dump of the ordered dict after the event-type
substitution, followed by `'---'`.  The external formatters
`message_to_csv`, `message_to_ordereddict` and `yaml.dump` are injected as
opaque functions over an opaque message type `α`. -/
def base_subscriber_to_print {α : Type} (csv : Bool)
    (message_to_csv : α → String) (message_to_ordereddict : α → MsgDict)
    (event_number_to_name : Int → String) (yaml_dump : MsgDict → String)
    (msg : α) (interface : String) : String :=
  let head := "interface: " ++ interface ++ "\n"
  if csv then
    head ++ message_to_csv msg
  else
    head ++ yaml_dump (substEventType event_number_to_name (message_to_ordereddict msg))
      ++ "---"

/-- Control location of the printer thread inside `message_handler`
(echo.py lines 160-167): about to evaluate `while run_thread` (`atTop`),
past that test and about to call `get` (`afterCheck`), or exited (`done`). -/
inductive PrinterLoc where
  | atTop
  | afterCheck
  | done
  deriving DecidableEq, Repr

/-- Shared state of the printer thread, the producers and `main`: the
`run_thread` flag, the queue contents (FIFO list, oldest first), the records
printed so far, and the printer's control location. -/
structure EchoState where
  runThread : Bool
  queue : List String
  printed : List String
  loc : PrinterLoc
  deriving DecidableEq, Repr

/-- One interleaved step: `checkFlag` is the printer evaluating
`while run_thread`; `tryGet` is `get(block=True, timeout=0.5)` followed by
`print(message)` on success or `continue` on `queue.Empty`; `setStop` is
`run_thread = False` performed by `main` (echo.py line 233); `push r` is a
producer callback enqueueing a record. -/
inductive EchoEvent where
  | checkFlag
  | tryGet
  | setStop
  | push (r : String)
  deriving DecidableEq, Repr

/-- Small-step semantics of `message_handler` and its environment. -/
def echoStep (s : EchoState) : EchoEvent → EchoState
  | .checkFlag =>
    if s.loc = PrinterLoc.atTop then
      if s.runThread then { s with loc := PrinterLoc.afterCheck }
      else { s with loc := PrinterLoc.done }
    else s
  | .tryGet =>
    if s.loc = PrinterLoc.afterCheck then
      match s.queue with
      | [] => { s with loc := PrinterLoc.atTop }
      | r :: rest =>
        { s with queue := rest, printed := s.printed ++ [r],
                 loc := PrinterLoc.atTop }
    else s
  | .setStop => { s with runThread := false }
  | .push r => { s with queue := s.queue ++ [r] }

/-- Run a whole interleaving of events from a start state. -/
def echoRun (s : EchoState) (events : List EchoEvent) : EchoState :=
  events.foldl echoStep s

/-- The error message `f'"{input_interface}" is incorrect interface name.'`
returned by `main` (echo.py line 116). -/
def INCORRECT_INTERFACE_MSG (s : String) : String :=
  "\"" ++ s ++ "\" is incorrect interface name."

/-- Echo.py lines 113-116: `for input_interface in args.interfaces`, return
the error string on the first name not in `action_interfaces_list`.  `none`
means validation passed (also when the list is empty, matching
`if args.interfaces:`). -/
def validateInterfaces : List String → Option String
  | [] => none
  | i :: rest =>
    if i ∈ action_interfaces_list then validateInterfaces rest
    else some (INCORRECT_INTERFACE_MSG i)

/-- Observable side effects performed by `EchoVerb.main` in program order. -/
inductive Effect where
  | createQueue (cap : Nat)
  | startPrinter
  | createSub (i : ActionInterfaces)
  | spin
  | destroySub (i : ActionInterfaces)
  | setStopFlag
  | joinPrinter (timeout : Nat)
  deriving DecidableEq, Repr

/-- Echo.py lines 171-210: a subscription is created for interface `i` when
`not args.interfaces or i.value.lower() in args.interfaces`. -/
def requestedSubs (interfaces : List String) : List ActionInterfaces :=
  allActionInterfaces.filter
    (fun i => decide (interfaces = [] ∨ pyLower i.value ∈ interfaces))

/-- Parsed arguments of the verb (after argparse). -/
structure Args where
  interfaces : List String
  queue_size : Nat
  resolutionOk : Bool
  deriving Repr

/-- The side-effecting skeleton of `EchoVerb.main` (echo.py lines 111-235):
validate the interface names (lines 112-116, returning the error string
before anything else runs), resolve the action type (lines 118-132, fatal
before any subscription on failure), then create the queue (line 156),
start the printer thread (lines 168-169), create the requested
subscriptions (lines 171-210), spin (lines 212-220), destroy the created
subscriptions (lines 222-231), set `run_thread = False` (line 233) and join
the printer thread with a 1 time-unit window (lines 234-235).  Returns the
effect trace and `some error` when main aborts early. -/
def mainEffects (args : Args) : List Effect × Option String :=
  match validateInterfaces args.interfaces with
  | some err => ([], some err)
  | none =>
    if args.resolutionOk = false then
      ([], some "Could not load the type for the passed action")
    else
      ([Effect.createQueue args.queue_size, Effect.startPrinter]
        ++ (requestedSubs args.interfaces).map Effect.createSub
        ++ [Effect.spin]
        ++ (requestedSubs args.interfaces).map Effect.destroySub
        ++ [Effect.setStopFlag, Effect.joinPrinter 1], none)

/-- Modelled from the spec: `unsigned_int` from `ros2cli.helpers`, the
argparse `type` of `--queue-size` and `--truncate-length`, is not under
`src/`.  The spec requires `queueSize` and `truncateLength` to be positive
integers and classes a non-positive value as a ConfigurationError that is
reported immediately. -/
def unsigned_int (raw : Int) : Except String Nat :=
  if raw ≤ 0 then Except.error "value must be a positive integer"
  else Except.ok raw.toNat

/-- The argparse default of `--queue-size` (echo.py line 87). -/
def DEFAULT_QUEUE_SIZE : Int := 100

/-- Argument parsing followed by `main`: a ConfigurationError raised while
parsing `--queue-size` aborts before `main` runs, so no effect is emitted. -/
def runCli (interfaces : List String) (rawQueueSize : Int)
    (resolutionOk : Bool) : List Effect × Option String :=
  match unsigned_int rawQueueSize with
  | Except.error e => ([], some e)
  | Except.ok qs => mainEffects ⟨interfaces, qs, resolutionOk⟩

theorem putAll_append_eq (rs : List String) : ∀ (c : Nat) (xs : List String),
    xs.length + rs.length ≤ c →
    putAll (RecordQueue.mk c xs) rs = some (RecordQueue.mk c (xs ++ rs)) := by
  induction rs with
  | nil => intro c xs _; simp [putAll]
  | cons r rs ih =>
    intro c xs h
    have hlt : xs.length < c := by simp at h; omega
    have hcond : c = 0 ∨ xs.length < c := Or.inr hlt
    have hput : (RecordQueue.mk c xs).put r = some (RecordQueue.mk c (xs ++ [r])) := by
      simp [RecordQueue.put, hlt]
    have hrec := ih c (xs ++ [r]) (by simp at h ⊢; omega)
    simp only [putAll, hput]
    rw [hrec]
    simp

theorem getN_append_eq (l : List String) : ∀ (c : Nat) (rest : List String),
    getN (RecordQueue.mk c (l ++ rest)) l.length = some (l, RecordQueue.mk c rest) := by
  induction l with
  | nil => intro c rest; simp [getN]
  | cons r l ih =>
    intro c rest
    simp only [List.cons_append, List.length_cons, getN, RecordQueue.get]
    rw [ih c rest]

theorem putOrDropAll_eq (rs : List String) : ∀ (c : Nat) (xs : List String),
    0 < c → xs.length ≤ c →
    putOrDropAll (RecordQueue.mk c xs) rs =
      (RecordQueue.mk c (xs ++ rs.take (c - xs.length)), rs.drop (c - xs.length)) := by
  induction rs with
  | nil => intro c xs _ _; simp [putOrDropAll]
  | cons r rs ih =>
    intro c xs hc hle
    rcases Nat.lt_or_ge xs.length c with hlt | hge
    · have hput : (RecordQueue.mk c xs).put r = some (RecordQueue.mk c (xs ++ [r])) := by
        simp [RecordQueue.put, hlt]
      have hrec := ih c (xs ++ [r]) hc (by simp; omega)
      have harith : c - xs.length = (c - (xs.length + 1)) + 1 := by omega
      simp only [putOrDropAll, hput, hrec]
      rw [harith]
      simp [List.take_succ_cons, List.drop_succ_cons]
    · have heq : xs.length = c := Nat.le_antisymm hle hge
      have hput : (RecordQueue.mk c xs).put r = none := by
        simp [RecordQueue.put]
        omega
      have hrec := ih c xs hc hle
      simp only [putOrDropAll, hput, hrec]
      rw [heq]
      simp

/-- Claim C1: for every sequence of N records pushed successfully onto the
RecordQueue (N ≤ capacity) by any mix of the five stream callbacks, N pops
yield exactly those records in the relative order of the successful pushes
(FIFO): all N puts succeed from the empty queue, and popping N times
returns the pushed list itself, leaving the queue empty.  The records are
arbitrary strings, so the order never depends on which interface produced
them. -/
theorem C1_fifo_order (c : Nat) (rs : List String) (h : rs.length ≤ c) :
    putAll (RecordQueue.empty c) rs = some (RecordQueue.mk c rs) ∧
    getN (RecordQueue.mk c rs) rs.length = some (rs, RecordQueue.empty c) := by
  constructor
  · have := putAll_append_eq rs c [] (by simpa using h)
    simpa [RecordQueue.empty] using this
  · have := getN_append_eq rs c []
    simpa [RecordQueue.empty] using this

theorem C1_fifo_order_witness :
    (["a", "b", "c"] : List String).length ≤ 3 ∧
    (putAll (RecordQueue.empty 3) ["a", "b", "c"] = some (RecordQueue.mk 3 ["a", "b", "c"]) ∧
     getN (RecordQueue.mk 3 ["a", "b", "c"]) (["a", "b", "c"] : List String).length =
       some (["a", "b", "c"], RecordQueue.empty 3)) :=
  ⟨by decide, C1_fifo_order 3 ["a", "b", "c"] (by decide)⟩

/-- Claim C6: the RecordQueue's size never exceeds its capacity (both `put`
and `get` preserve `size ≤ capacity`, the capacity fixed at construction),
and pushing capacity+1 records with no intervening pop and the timeout
elapsing yields QueueFull on the last push only, after which popping yields
exactly `capacity` records (the first `capacity` pushed). -/
theorem C6_bounded_capacity (q : RecordQueue) (r : String) (c : Nat) (rs : List String) :
    (0 < q.capacity → q.items.length ≤ q.capacity →
      ∀ q2, q.put r = some q2 → q2.items.length ≤ q2.capacity ∧ q2.capacity = q.capacity) ∧
    (∀ r2 q2, q.get = some (r2, q2) →
      q2.items.length ≤ q.items.length ∧ q2.capacity = q.capacity) ∧
    (0 < c → rs.length = c + 1 →
      putOrDropAll (RecordQueue.empty c) rs = (RecordQueue.mk c (rs.take c), rs.drop c) ∧
      (rs.drop c).length = 1 ∧
      getN (RecordQueue.mk c (rs.take c)) c = some (rs.take c, RecordQueue.empty c) ∧
      (rs.take c).length = c) := by
  refine ⟨?_, ?_, ?_⟩
  · intro hc _ q2 hput
    simp only [RecordQueue.put] at hput
    split at hput
    · rename_i hcond
      rcases hcond with h0 | hlt
      · omega
      · cases hput
        simp
        omega
    · exact absurd hput (by simp)
  · intro r2 q2 hget
    simp only [RecordQueue.get] at hget
    match hmatch : q.items with
    | [] => rw [hmatch] at hget; cases hget
    | x :: rest =>
      rw [hmatch] at hget
      cases hget
      simp [hmatch]
  · intro hc hlen
    have hdrop := putOrDropAll_eq rs c [] hc (by simp)
    have htake : (rs.take c).length = c := by
      rw [List.length_take]
      omega
    refine ⟨?_, ?_, ?_, htake⟩
    · simpa [RecordQueue.empty] using hdrop
    · rw [List.length_drop]
      omega
    · have := getN_append_eq (rs.take c) c []
      rw [htake] at this
      simpa [RecordQueue.empty] using this

theorem C6_bounded_capacity_witness :
    (0 < 2 ∧ (["x", "y", "z"] : List String).length = 2 + 1) ∧
    (putOrDropAll (RecordQueue.empty 2) ["x", "y", "z"] =
        (RecordQueue.mk 2 ((["x", "y", "z"] : List String).take 2),
         (["x", "y", "z"] : List String).drop 2) ∧
      ((["x", "y", "z"] : List String).drop 2).length = 1 ∧
      getN (RecordQueue.mk 2 ((["x", "y", "z"] : List String).take 2)) 2 =
        some ((["x", "y", "z"] : List String).take 2, RecordQueue.empty 2) ∧
      ((["x", "y", "z"] : List String).take 2).length = 2) :=
  ⟨⟨by decide, by decide⟩,
   (C6_bounded_capacity (RecordQueue.empty 2) "x" 2 ["x", "y", "z"]).2.2 (by decide) (by decide)⟩

/-- Claim C2: when a stream callback's push times out with the queue still
at capacity (QueueFull), the record is dropped (the queue is unchanged), a
one-line warning recommending a larger queue size is printed, and the
callback returns normally; the only possible outcomes of the enqueue are
success with no warning or a drop with that one warning, so QueueFull is
never surfaced as a fatal error. -/
theorem C2_queue_full_nonfatal (q : RecordQueue) (record : String)
    (hc : 0 < q.capacity) (hfull : q.capacity ≤ q.items.length) :
    base_subscriber_enqueue q record = (q, [queueFullWarning]) ∧
    '\n' ∉ queueFullWarning.data ∧
    (∀ q2 r2, (base_subscriber_enqueue q2 r2).2 = [] ∨
      (base_subscriber_enqueue q2 r2).2 = [queueFullWarning]) := by
  refine ⟨?_, by decide, ?_⟩
  · have hput : q.put record = none := by
      simp [RecordQueue.put]
      omega
    simp [base_subscriber_enqueue, hput]
  · intro q2 r2
    unfold base_subscriber_enqueue
    cases q2.put r2 <;> simp

theorem C2_queue_full_nonfatal_witness :
    (0 < (RecordQueue.mk 1 ["r0"]).capacity ∧
     (RecordQueue.mk 1 ["r0"]).capacity ≤ (RecordQueue.mk 1 ["r0"]).items.length) ∧
    (base_subscriber_enqueue (RecordQueue.mk 1 ["r0"]) "r1" =
      (RecordQueue.mk 1 ["r0"], [queueFullWarning]) ∧
     '\n' ∉ queueFullWarning.data ∧
     (∀ q2 r2, (base_subscriber_enqueue q2 r2).2 = [] ∨
       (base_subscriber_enqueue q2 r2).2 = [queueFullWarning])) :=
  ⟨⟨by decide, by decide⟩,
   C2_queue_full_nonfatal (RecordQueue.mk 1 ["r0"]) "r1" (by decide) (by decide)⟩

theorem action_interfaces_list_eq :
    action_interfaces_list =
      ["goal_service", "cancel_service", "result_service", "feedback_topic",
       "status_topic"] := by
  decide

/-- Claim C9: matching of names given to `--interfaces` is exact and
case-sensitive against the five lowercase identifiers; other spellings of a
valid identity such as "GOAL_SERVICE" or "Goal_Service" are rejected as
incorrect interface names. -/
theorem C9_case_sensitive_match :
    (∀ s : String, s ∈ action_interfaces_list ↔
      s = "goal_service" ∨ s = "cancel_service" ∨ s = "result_service" ∨
      s = "feedback_topic" ∨ s = "status_topic") ∧
    "GOAL_SERVICE" ∉ action_interfaces_list ∧
    "Goal_Service" ∉ action_interfaces_list ∧
    validateInterfaces ["GOAL_SERVICE"] =
      some (INCORRECT_INTERFACE_MSG "GOAL_SERVICE") ∧
    validateInterfaces
      ["goal_service", "cancel_service", "result_service", "feedback_topic",
       "status_topic"] = none := by
  refine ⟨?_, by decide, by decide, by decide, by decide⟩
  intro s
  rw [action_interfaces_list_eq]
  simp

theorem C9_case_sensitive_match_witness :
    "goal_service" ∈ action_interfaces_list :=
  (C9_case_sensitive_match.1 "goal_service").mpr (Or.inl rfl)

theorem validate_finds_bad (l : List String)
    (h : ∃ b, b ∈ l ∧ b ∉ action_interfaces_list) :
    ∃ b, b ∈ l ∧ b ∉ action_interfaces_list ∧
      validateInterfaces l = some (INCORRECT_INTERFACE_MSG b) := by
  induction l with
  | nil =>
    obtain ⟨b, hb, _⟩ := h
    cases hb
  | cons i rest ih =>
    obtain ⟨b, hb, hbad⟩ := h
    by_cases hi : i ∈ action_interfaces_list
    · have hbrest : b ∈ rest := by
        rcases List.mem_cons.mp hb with heq | hmem
        · subst heq; exact absurd hi hbad
        · exact hmem
      obtain ⟨b2, h1, h2, h3⟩ := ih ⟨b, hbrest, hbad⟩
      exact ⟨b2, List.mem_cons_of_mem _ h1, h2, by simp [validateInterfaces, hi, h3]⟩
    · exact ⟨i, List.mem_cons_self i rest, hi, by simp [validateInterfaces, hi]⟩

/-- Claim C5: if any requested interface name does not match one of the five
known identifiers, `main` fails with the error message naming the offending
name, and the effect trace is empty — no queue, no printer thread, no
subscription is created. -/
theorem C5_invalid_interface_aborts (args : Args)
    (h : ∃ b, b ∈ args.interfaces ∧ b ∉ action_interfaces_list) :
    ∃ b, b ∈ args.interfaces ∧ b ∉ action_interfaces_list ∧
      mainEffects args = ([], some (INCORRECT_INTERFACE_MSG b)) := by
  obtain ⟨b, h1, h2, h3⟩ := validate_finds_bad args.interfaces h
  exact ⟨b, h1, h2, by simp [mainEffects, h3]⟩

theorem C5_invalid_interface_aborts_witness :
    ∃ b, b ∈ (Args.mk ["bogus"] 100 true).interfaces ∧
      b ∉ action_interfaces_list ∧
      mainEffects (Args.mk ["bogus"] 100 true) =
        ([], some (INCORRECT_INTERFACE_MSG b)) :=
  C5_invalid_interface_aborts (Args.mk ["bogus"] 100 true)
    ⟨"bogus", by decide, by decide⟩

/-- Claim C3 is false on the code (counterexample): start with one record
"rec" already available in the queue and the printer at the top of its loop;
`main` sets the stop flag (`run_thread = False`), then the printer evaluates
`while run_thread` and exits.  The printer terminates with the record still
queued and nothing printed — it does not pop the record that was available
at the moment the stop flag was set, and the terminated printer never pops
or prints again. -/
theorem C3_counterexample :
    echoRun (EchoState.mk true ["rec"] [] PrinterLoc.atTop)
        [EchoEvent.setStop, EchoEvent.checkFlag] =
      EchoState.mk false ["rec"] [] PrinterLoc.done ∧
    echoStep (EchoState.mk false ["rec"] [] PrinterLoc.done) EchoEvent.checkFlag =
      EchoState.mk false ["rec"] [] PrinterLoc.done ∧
    echoStep (EchoState.mk false ["rec"] [] PrinterLoc.done) EchoEvent.tryGet =
      EchoState.mk false ["rec"] [] PrinterLoc.done := by
  exact ⟨by decide, by decide, by decide⟩

/-- Claim C3 (amended): the printer loop exits exactly when it observes the
stop flag cleared at the top of an iteration, regardless of queued records
(a record still queued at that check is abandoned); however, a pop already
past the flag check still delivers an available record — and prints it —
even if the stop flag is cleared in the meantime; and on QueueEmpty the
printer returns to the top of the loop, where the stop flag is re-checked,
and continues. -/
theorem C3_amended_printer_loop (s : EchoState) (e : EchoEvent) (r : String)
    (rest : List String) :
    ((echoStep s e).loc = PrinterLoc.done →
      s.loc = PrinterLoc.done ∨
      (s.loc = PrinterLoc.atTop ∧ e = EchoEvent.checkFlag ∧ s.runThread = false)) ∧
    (s.loc = PrinterLoc.afterCheck → s.queue = r :: rest →
      echoStep s EchoEvent.tryGet =
        { s with queue := rest, printed := s.printed ++ [r],
                 loc := PrinterLoc.atTop }) ∧
    (s.loc = PrinterLoc.afterCheck → s.queue = [] →
      echoStep s EchoEvent.tryGet = { s with loc := PrinterLoc.atTop }) := by
  refine ⟨?_, ?_, ?_⟩
  · cases e with
    | checkFlag =>
      simp only [echoStep]
      by_cases h : s.loc = PrinterLoc.atTop
      · rw [if_pos h]
        by_cases hr : s.runThread
        · rw [if_pos hr]
          intro hd
          simp at hd
        · rw [if_neg hr]
          intro _
          exact Or.inr ⟨h, by trivial, by simpa using hr⟩
      · rw [if_neg h]
        intro hd
        exact Or.inl hd
    | tryGet =>
      simp only [echoStep]
      by_cases h : s.loc = PrinterLoc.afterCheck
      · rw [if_pos h]
        rcases hq : s.queue with _ | ⟨x, xs⟩ <;> simp [hq]
      · rw [if_neg h]
        intro hd
        exact Or.inl hd
    | setStop =>
      simp only [echoStep]
      intro hd
      exact Or.inl (by simpa using hd)
    | push r2 =>
      simp only [echoStep]
      intro hd
      exact Or.inl (by simpa using hd)
  · intro h hq
    simp [echoStep, h, hq]
  · intro h hq
    simp [echoStep, h, hq]

theorem C3_amended_printer_loop_witness :
    echoStep (EchoState.mk false ["rec"] [] PrinterLoc.afterCheck) EchoEvent.tryGet =
      EchoState.mk false [] ["rec"] PrinterLoc.atTop :=
  (C3_amended_printer_loop (EchoState.mk false ["rec"] [] PrinterLoc.afterCheck)
    EchoEvent.checkFlag "rec" []).2.1 rfl rfl

/-- Claim C7 is false on the code (counterexample): in CSV mode the enqueued
and flushed record is not a bare comma-separated field list — the code
prepends `'interface: ' + interface + '\n'` unconditionally (echo.py line
253), so with a CSV rendering "1,2,3" the record is
"interface: GOAL_SERVICE\n1,2,3". -/
theorem C7_counterexample :
    base_subscriber_to_print true (fun _ : Unit => "1,2,3") (fun _ => [])
        (fun _ => "") (fun _ => "") () "GOAL_SERVICE" =
      "interface: GOAL_SERVICE\n1,2,3" ∧
    base_subscriber_to_print true (fun _ : Unit => "1,2,3") (fun _ => [])
        (fun _ => "") (fun _ => "") () "GOAL_SERVICE" ≠ "1,2,3" := by
  exact ⟨by decide, by decide⟩

/-- Claim C7 (amended): every record a stream callback enqueues begins with
the line `interface: <StreamIdentity>`; in CSV mode that line is followed by
the comma-separated flattened field list produced by the CSV formatter, and
in non-CSV mode by the YAML block (after event-type substitution) terminated
by `---`. -/
theorem C7_amended_record_format {α : Type} (csv : Bool)
    (message_to_csv : α → String) (message_to_ordereddict : α → MsgDict)
    (event_number_to_name : Int → String) (yaml_dump : MsgDict → String)
    (msg : α) (interface : String) :
    ∃ rest, base_subscriber_to_print csv message_to_csv message_to_ordereddict
        event_number_to_name yaml_dump msg interface =
        "interface: " ++ interface ++ "\n" ++ rest ∧
      (csv = true → rest = message_to_csv msg) ∧
      (csv = false → rest =
        yaml_dump (substEventType event_number_to_name (message_to_ordereddict msg))
          ++ "---") := by
  cases csv with
  | false =>
    refine ⟨yaml_dump (substEventType event_number_to_name (message_to_ordereddict msg))
      ++ "---", ?_, ?_, ?_⟩
    · simp only [base_subscriber_to_print, if_neg (by simp : ¬(false = true))]
      rw [String.append_assoc]
    · intro h; cases h
    · intro _; rfl
  | true =>
    refine ⟨message_to_csv msg, rfl, ?_, ?_⟩
    · intro _; rfl
    · intro h; cases h

theorem C7_amended_record_format_witness :
    ∃ rest, base_subscriber_to_print true (fun _ : Unit => "1,2") (fun _ => [])
        (fun _ => "") (fun _ => "") () "STATUS_TOPIC" =
        "interface: " ++ "STATUS_TOPIC" ++ "\n" ++ rest ∧
      (true = true → rest = (fun _ : Unit => "1,2") ()) ∧
      (true = false → rest =
        (fun _ : MsgDict => "")
          (substEventType (fun _ => "") ((fun _ : Unit => ([] : MsgDict)) ()))
          ++ "---") :=
  C7_amended_record_format true (fun _ => "1,2") (fun _ => []) (fun _ => "")
    (fun _ => "") () "STATUS_TOPIC"

theorem lookup_setKey_same (l : MsgDict) (key : String) (v : Val) :
    lookupKey (setKey l key v) key = some v := by
  induction l with
  | nil => simp [setKey, lookupKey]
  | cons kv rest ih =>
    obtain ⟨k, w⟩ := kv
    by_cases h : k = key
    · simp [setKey, h, lookupKey]
    · simp [setKey, h, lookupKey, ih]

/-- Claim C10: the numeric `event_type` field is replaced by its symbolic
name only in non-CSV mode and only when the rendered dict has an `info`
mapping with an `event_type` key; in CSV mode the CSV formatter's output
(with its numeric value) is emitted unchanged, and dicts missing either key
are left without any substitution. -/
theorem C10_event_type_substitution {α : Type}
    (message_to_csv : α → String) (message_to_ordereddict : α → MsgDict)
    (event_number_to_name : Int → String) (yaml_dump : MsgDict → String)
    (msg : α) (interface : String) (d info : MsgDict) (n : Int) :
    (base_subscriber_to_print true message_to_csv message_to_ordereddict
        event_number_to_name yaml_dump msg interface =
      "interface: " ++ interface ++ "\n" ++ message_to_csv msg) ∧
    (base_subscriber_to_print false message_to_csv message_to_ordereddict
        event_number_to_name yaml_dump msg interface =
      "interface: " ++ interface ++ "\n" ++
        (yaml_dump (substEventType event_number_to_name (message_to_ordereddict msg))
          ++ "---")) ∧
    (lookupKey d "info" = none → substEventType event_number_to_name d = d) ∧
    (lookupKey d "info" = some (Val.dict info) →
      lookupKey info "event_type" = none →
      substEventType event_number_to_name d = d) ∧
    (lookupKey d "info" = some (Val.dict info) →
      lookupKey info "event_type" = some (Val.num n) →
      substEventType event_number_to_name d =
        setKey d "info"
          (Val.dict (setKey info "event_type" (Val.str (event_number_to_name n)))) ∧
      lookupKey (setKey info "event_type" (Val.str (event_number_to_name n)))
        "event_type" = some (Val.str (event_number_to_name n))) := by
  refine ⟨rfl, ?_, ?_, ?_, ?_⟩
  · simp only [base_subscriber_to_print, if_neg (by simp : ¬(false = true))]
    rw [String.append_assoc]
  · intro h
    simp [substEventType, h]
  · intro h1 h2
    simp [substEventType, h1, h2]
  · intro h1 h2
    refine ⟨?_, lookup_setKey_same info "event_type" (Val.str (event_number_to_name n))⟩
    simp [substEventType, h1, h2]

theorem C10_event_type_substitution_witness :
    substEventType (fun _ => "REQUEST_RECEIVED")
        [("info", Val.dict [("event_type", Val.num 1)])] =
      setKey [("info", Val.dict [("event_type", Val.num 1)])] "info"
        (Val.dict (setKey [("event_type", Val.num 1)] "event_type"
          (Val.str ((fun _ : Int => "REQUEST_RECEIVED") 1)))) ∧
    lookupKey (setKey [("event_type", Val.num 1)] "event_type"
        (Val.str ((fun _ : Int => "REQUEST_RECEIVED") 1))) "event_type" =
      some (Val.str ((fun _ : Int => "REQUEST_RECEIVED") 1)) :=
  (C10_event_type_substitution (fun _ : Unit => "") (fun _ => [])
      (fun _ => "REQUEST_RECEIVED") (fun _ => "") () ""
      [("info", Val.dict [("event_type", Val.num 1)])]
      [("event_type", Val.num 1)] 1).2.2.2.2 (by simp [lookupKey])
    (by simp [lookupKey])

/-- Claim C4: a non-positive requested queue size is a ConfigurationError
reported by the argument parser before `main` runs, so the effect trace is
empty (no queue, no printer, no subscriptions) and an error is returned
(non-zero exit); every RecordQueue ever created carries a positive capacity;
and the default queue size 100 parses successfully to 100. -/
theorem C4_nonpositive_queue_size (interfaces : List String) (raw : Int)
    (resolutionOk : Bool) :
    (raw ≤ 0 → runCli interfaces raw resolutionOk =
      ([], some "value must be a positive integer")) ∧
    (∀ cap, Effect.createQueue cap ∈ (runCli interfaces raw resolutionOk).1 →
      0 < cap) ∧
    unsigned_int DEFAULT_QUEUE_SIZE = Except.ok 100 := by
  refine ⟨?_, ?_, rfl⟩
  · intro h
    simp [runCli, unsigned_int, h]
  · intro cap hmem
    by_cases h : raw ≤ 0
    · simp [runCli, unsigned_int, h] at hmem
    · simp only [runCli, unsigned_int, if_neg h] at hmem
      unfold mainEffects at hmem
      cases hv : validateInterfaces interfaces with
      | some err =>
        rw [hv] at hmem
        simp at hmem
      | none =>
        rw [hv] at hmem
        cases resolutionOk with
        | false => simp at hmem
        | true =>
          simp at hmem
          omega

theorem C4_nonpositive_queue_size_witness :
    runCli ["goal_service"] 0 true =
      ([], some "value must be a positive integer") :=
  (C4_nonpositive_queue_size ["goal_service"] 0 true).1 (by decide)

/-- Claim C8: on shutdown, every subscription that was created is destroyed
before the stop flag is set (so no callback can push once draining begins),
the stop flag is set before the printer is joined, the join window is
exactly 1 time-unit, and once the printer has terminated no event — pop
attempt, flag check, stop, or push — ever extends what it printed: records
still queued are discarded rather than flushed. -/
theorem C8_shutdown_order (args : Args)
    (hv : validateInterfaces args.interfaces = none)
    (hr : args.resolutionOk = true) :
    (∃ pre, (mainEffects args).1 = pre ++ [Effect.setStopFlag, Effect.joinPrinter 1] ∧
      Effect.setStopFlag ∉ pre ∧
      (∀ t, Effect.joinPrinter t ∉ pre) ∧
      (∀ i, Effect.createSub i ∈ pre → Effect.destroySub i ∈ pre)) ∧
    (∀ s e, s.loc = PrinterLoc.done →
      (echoStep s e).printed = s.printed ∧ (echoStep s e).loc = PrinterLoc.done) := by
  constructor
  · refine ⟨[Effect.createQueue args.queue_size, Effect.startPrinter] ++
      (requestedSubs args.interfaces).map Effect.createSub ++ [Effect.spin] ++
      (requestedSubs args.interfaces).map Effect.destroySub, ?_, ?_, ?_, ?_⟩
    · simp [mainEffects, hv, hr]
    · simp
    · intro t
      simp
    · intro i hmem
      simp at hmem ⊢
      exact hmem
  · intro s e hdone
    cases e <;> simp [echoStep, hdone]

theorem C8_shutdown_order_witness :
    (∃ pre, (mainEffects (Args.mk [] 100 true)).1 =
        pre ++ [Effect.setStopFlag, Effect.joinPrinter 1] ∧
      Effect.setStopFlag ∉ pre ∧
      (∀ t, Effect.joinPrinter t ∉ pre) ∧
      (∀ i, Effect.createSub i ∈ pre → Effect.destroySub i ∈ pre)) ∧
    (∀ s e, s.loc = PrinterLoc.done →
      (echoStep s e).printed = s.printed ∧ (echoStep s e).loc = PrinterLoc.done) :=
  C8_shutdown_order (Args.mk [] 100 true) rfl rfl
